import Mathlib

/-!
Shallow embedding of the streamhead RTMP ingest pipeline (src/src/rtmp.rs),
together with the frame/stream data model of the crate root (modelled from the
spec, the crate root is not part of the provided sources) and the behaviour of
the external crates the source calls into (rml_rtmp timestamps, flvparse FLV
tag layouts, h264_reader Annex-B scanning), modelled from their documented
byte-level formats.

Bytes are modelled as natural numbers; machine integers are naturals with an
explicit reduction modulo 2 ^ 32 where the source relies on 32-bit wrapping.
Fallible Rust code (anyhow::Result) is modelled with an explicit result type
that distinguishes a returned error from a panic (Option::unwrap on None).
-/

namespace Streamhead

/-- A byte of payload data (0 ≤ b < 256 on real inputs; parsers treat the
value numerically and do not depend on the bound). -/
abbrev Byte := Nat

/-- Outcome of a fallible operation: an ok value, a returned error
(anyhow::bail / error propagation), or a panic (Option::unwrap on None). -/
inductive Res (α : Type) where
  | ok (a : α)
  | err (msg : String)
  | panic
deriving Repr, DecidableEq

/-- Modelled from the spec §3: a rational timebase (crate-root type `Fraction`,
not under src/). -/
structure Fraction where
  num : Nat
  den : Nat
deriving Repr, DecidableEq

/-- rtmp.rs line 34: the RTMP timebase is 1/1000 (milliseconds). -/
def RTMP_TIMEBASE : Fraction := ⟨1, 1000⟩

/-- Modelled from the spec §3: audio channel layout (crate-root type
`SoundType`, not under src/). -/
inductive SoundKind where
  | mono
  | stereo
deriving Repr, DecidableEq

/-- Modelled from the spec §3: AAC audio codec parameters (crate-root type
`AudioCodecInfo`, not under src/). -/
structure AudioCodecInfo where
  sample_rate : Nat
  sample_bpp : Nat
  sound_type : SoundKind
deriving Repr, DecidableEq

/-- Modelled from the spec §3: codec-specific H.264 data (crate-root type
`VideoCodecSpecificInfo::H264`, not under src/). -/
structure VideoCodecSpecificInfo where
  profile_indication : Byte
  profile_compatibility : Byte
  level_indication : Byte
  sps : List Byte
  pps : List Byte
deriving Repr, DecidableEq

/-- Modelled from the spec §3: H.264 video codec parameters (crate-root type
`VideoCodecInfo`, not under src/). -/
structure VideoCodecInfo where
  width : Nat
  height : Nat
  extra : VideoCodecSpecificInfo
deriving Repr, DecidableEq

/-- Modelled from the spec §3: tagged union over the two codec kinds
(crate-root type `CodecTypeInfo`, not under src/). -/
inductive CodecTypeInfo where
  | video (v : VideoCodecInfo)
  | audio (a : AudioCodecInfo)
deriving Repr, DecidableEq

/-- Modelled from the spec §3: a codec descriptor (crate-root type
`CodecInfo`, not under src/). -/
structure CodecInfo where
  name : String
  properties : CodecTypeInfo
deriving Repr, DecidableEq

/-- Modelled from the spec §3: a stream descriptor: numeric id, codec
descriptor, timebase (crate-root type `Stream`, not under src/). -/
structure Stream where
  id : Nat
  codec : CodecInfo
  timebase : Fraction
deriving Repr, DecidableEq

/-- Modelled from the spec §3: frame dependency tag (crate-root type
`FrameDependency`, not under src/). -/
inductive FrameDependency where
  | none
  | backwards
deriving Repr, DecidableEq

/-- Modelled from the spec §3: media time: pts, optional dts, timebase
(crate-root type `MediaTime`, not under src/). -/
structure MediaTime where
  pts : Nat
  dts : Option Nat
  timebase : Fraction
deriving Repr, DecidableEq

/-- Modelled from the spec §3: the output unit of the assembler (crate-root
type `Frame`, not under src/). The wall-clock arrival instant (diagnostics
only, spec §3) is omitted: it is not observable in a pure embedding. -/
structure Frame where
  time : MediaTime
  dependency : FrameDependency
  buffer : List Byte
  stream : Stream
deriving Repr, DecidableEq

/-! ### FLV tag layer (external crate flvparse, modelled from the FLV layout
the spec §4.3 describes: 1-byte audio/video tag headers, 4-byte AVC packet
header). -/

/-- FLV video tag frame type, decoded from the high nibble of the video tag
header byte (flvparse::FrameType). -/
inductive FrameType where
  | key
  | inter
  | disposableInter
  | generated
  | command
  | unknown
deriving Repr, DecidableEq

/-- Decode the frame-type nibble (spec §4.3: 1=key, 2=inter, 3=disposable,
4=generated-key, 5=info/command). -/
def FrameType.ofNibble (n : Nat) : FrameType :=
  if n = 1 then .key
  else if n = 2 then .inter
  else if n = 3 then .disposableInter
  else if n = 4 then .generated
  else if n = 5 then .command
  else .unknown

/-- flvparse::VideoTagHeader: frame type and codec id nibbles of the first
tag byte. -/
structure VideoTagHeader where
  frame_type : FrameType
  codec_id : Nat
deriving Repr, DecidableEq

/-- flvparse::VideoTag: header byte plus the raw tag body
(VideoTagBody.data). -/
structure VideoTag where
  header : VideoTagHeader
  body : List Byte
deriving Repr, DecidableEq

/-- flvparse::VideoTag::parse: requires at least the 1-byte header; the body
is the remaining data. -/
def VideoTag.parse (data : List Byte) : Option VideoTag :=
  match data with
  | [] => Option.none
  | b :: rest => some ⟨⟨FrameType.ofNibble (b / 16), b % 16⟩, rest⟩

/-- flvparse::AvcPacketType (spec §4.3: 0=sequence header, 1=NALU,
2=end-of-sequence). -/
inductive AvcPacketType where
  | sequenceHeader
  | nalu
  | endOfSequence
  | unknown
deriving Repr, DecidableEq

/-- Decode the AVC packet type byte. -/
def AvcPacketType.ofByte (n : Nat) : AvcPacketType :=
  if n = 0 then .sequenceHeader
  else if n = 1 then .nalu
  else if n = 2 then .endOfSequence
  else .unknown

/-- flvparse::AvcVideoPacket: packet type byte, 24-bit composition time
(carried but discarded by the assembler), and the remaining AVC body. -/
structure AvcVideoPacket where
  packet_type : AvcPacketType
  composition_time : Nat
  avc_data : List Byte
deriving Repr, DecidableEq

/-- flvparse::avc_video_packet: requires the 4-byte AVC packet header
(packet type + 3-byte big-endian composition time); the body is the rest. -/
def avc_video_packet (body : List Byte) : Option AvcVideoPacket :=
  match body with
  | t :: c1 :: c2 :: c3 :: rest =>
      some ⟨AvcPacketType.ofByte t, c1 * 65536 + c2 * 256 + c3, rest⟩
  | _ => Option.none

/-- flvparse::AudioTagHeader: the four bit fields of the first audio tag byte
(spec §4.3). The sound format nibble is kept numerically; AAC is value 10. -/
structure AudioTagHeader where
  sound_format : Nat
  sound_rate : Nat
  sound_size : Nat
  sound_type : Nat
deriving Repr, DecidableEq

/-- flvparse::AudioTag: header byte plus raw tag body (AudioTagBody.data). -/
structure AudioTag where
  header : AudioTagHeader
  body : List Byte
deriving Repr, DecidableEq

/-- flvparse::AudioTag::parse: decodes the 1-byte header
(format nibble, 2-bit rate, 1-bit size, 1-bit type); the body is the rest. -/
def AudioTag.parse (data : List Byte) : Option AudioTag :=
  match data with
  | [] => Option.none
  | b :: rest =>
      some ⟨⟨b / 16, b / 4 % 4, b / 2 % 2, b % 2⟩, rest⟩

/-- rtmp.rs lines 348-358: parse an FLV video tag and its AVC packet;
either parse failure is an anyhow error. -/
def parse_video_tag (data : List Byte) : Res (VideoTag × AvcVideoPacket) :=
  match VideoTag.parse data with
  | Option.none => .err "Failed to parse video tag"
  | some tag =>
    match avc_video_packet tag.body with
    | Option.none => .err "Failed to parse AVC video packet"
    | some packet => .ok (tag, packet)

/-- rtmp.rs lines 360-364: parse an FLV audio tag. -/
def parse_audio_tag (data : List Byte) : Res AudioTag :=
  match AudioTag.parse data with
  | Option.none => .err "Failed to parse audio tag"
  | some tag => .ok tag

/-! ### H.264 parameter-set layer (external crate h264_reader; the Annex-B
scan and the emulation-prevention removal are modelled from the byte formats
the spec §4.4 and the glossary describe; the bit-level SPS/PPS payload
decoding is kept shallow since no claim depends on decoded SPS contents). -/

/-- Helper for h264_reader::rbsp::decode_nal: removes an emulation-prevention
0x03 byte that follows two zero bytes, tracking the current zero run. -/
def decodeNalGo : List Byte → Nat → List Byte
  | [], _ => []
  | b :: rest, zeros =>
      if b = 3 ∧ 2 ≤ zeros then decodeNalGo rest 0
      else b :: decodeNalGo rest (if b = 0 then zeros + 1 else 0)

/-- h264_reader::rbsp::decode_nal: NAL payload bytes with emulation-prevention
bytes removed (spec glossary: RBSP). -/
def decode_nal (bytes : List Byte) : List Byte := decodeNalGo bytes 0

/-- Modelled shallowly: h264_reader's SeqParameterSet carries the decoded
RBSP; its bit-level fields beyond the three leading header bytes are not
re-derived (no claim depends on them). -/
structure SeqParameterSet where
  rbsp : List Byte
deriving Repr, DecidableEq

/-- SeqParameterSet::from_bytes: the parse fails on an SPS RBSP too short to
hold profile_idc, constraint flags and level_idc; finer-grained bit-level
validation is abstracted away (no claim depends on it). -/
def SeqParameterSet.from_bytes (rbsp : List Byte) : Option SeqParameterSet :=
  if rbsp.length < 3 then Option.none else some ⟨rbsp⟩

/-- SPS profile_idc: the first RBSP byte. -/
def SeqParameterSet.profile_idc (s : SeqParameterSet) : Byte := s.rbsp.headD 0

/-- SPS constraint flags: the second RBSP byte. -/
def SeqParameterSet.constraint_flags (s : SeqParameterSet) : Byte :=
  s.rbsp.tail.headD 0

/-- SPS level_idc: the third RBSP byte. -/
def SeqParameterSet.level_idc (s : SeqParameterSet) : Byte :=
  s.rbsp.tail.tail.headD 0

/-- Modelled shallowly: the cropping-aware pixel-dimension computation of
h264_reader is not re-derived (no claim depends on the dimension values);
it is modelled as total. -/
def SeqParameterSet.pixel_dimensions (_ : SeqParameterSet) : Option (Nat × Nat) :=
  some (0, 0)

/-- Modelled shallowly: h264_reader's PicParameterSet; only its presence
matters to the source. -/
structure PicParameterSet where
  rbsp : List Byte
deriving Repr, DecidableEq

/-- PicParameterSet::from_bytes, modelled as total (the source never inspects
the parse result, only its presence: rtmp.rs line 427 binds it as `_pps`). -/
def PicParameterSet.from_bytes (rbsp : List Byte) : Option PicParameterSet :=
  some ⟨rbsp⟩

/-- rtmp.rs lines 36-40: the accumulator filled by the SPS/PPS NAL handlers:
for each kind, the raw NAL bytes and the parse result. -/
structure ParameterSetContext where
  sps : Option (List Byte × Option SeqParameterSet)
  pps : Option (List Byte × Option PicParameterSet)
deriving Repr, DecidableEq

/-- Helper for the Annex-B scan: walks the byte stream tracking the current
zero run, the NAL unit being accumulated (none before the first start code)
and the completed units. A start code is two or more zero bytes followed by
0x01; zeros beyond the two of the start code stay with the preceding unit;
bytes before the first start code are discarded. -/
def annexBGo : List Byte → Nat → Option (List Byte) → List (List Byte) →
    List (List Byte)
  | [], zeros, cur, done =>
      match cur with
      | Option.none => done
      | some u => done ++ [u ++ List.replicate zeros 0]
  | b :: rest, zeros, cur, done =>
      if b = 0 then annexBGo rest (zeros + 1) cur done
      else if b = 1 ∧ 2 ≤ zeros then
        match cur with
        | Option.none => annexBGo rest 0 (some []) done
        | some u => annexBGo rest 0 (some []) (done ++ [u ++ List.replicate (zeros - 2) 0])
      else
        match cur with
        | Option.none => annexBGo rest 0 Option.none done
        | some u => annexBGo rest 0 (some (u ++ List.replicate zeros 0 ++ [b])) done

/-- Models h264_reader::annexb::AnnexBReader: split an Annex-B byte stream at
its start codes into the NAL units delivered to the handlers. -/
def annexBUnits (bytes : List Byte) : List (List Byte) :=
  annexBGo bytes 0 Option.none []

/-- rtmp.rs lines 404-423 together with the handlers at lines 482-516:
scan the Annex-B stream; each NAL whose type (low five bits of the header
byte) is 7 records the SPS, type 8 records the PPS; the handlers strip the
header byte and remove emulation prevention before parsing. -/
def find_parameter_sets (bytes : List Byte) : ParameterSetContext :=
  (annexBUnits bytes).foldl
    (fun ctx nal =>
      match nal with
      | [] => ctx
      | h :: _ =>
        if h % 32 = 7 then
          { ctx with sps := some (nal, SeqParameterSet.from_bytes (decode_nal nal.tail)) }
        else if h % 32 = 8 then
          { ctx with pps := some (nal, PicParameterSet.from_bytes (decode_nal nal.tail)) }
        else ctx)
    ⟨Option.none, Option.none⟩

/-- rtmp.rs lines 425-453: build the H.264 codec descriptor from the captured
parameter sets. The source unwraps the SPS option, the PPS option, the SPS
parse result and the pixel-dimension result: each missing value is a panic,
not a returned error. -/
def get_video_codec_info (parameter_sets : ParameterSetContext) : Res CodecInfo :=
  match parameter_sets.sps with
  | Option.none => .panic
  | some (sps_bytes, sps_res) =>
    match parameter_sets.pps with
    | Option.none => .panic
    | some (pps_bytes, _pps) =>
      match sps_res with
      | Option.none => .panic
      | some sps =>
        match sps.pixel_dimensions with
        | Option.none => .panic
        | some (width, height) =>
          .ok { name := "h264",
                properties := .video {
                  width := width,
                  height := height,
                  extra := {
                    profile_indication := sps.profile_idc,
                    profile_compatibility := sps.constraint_flags,
                    level_indication := sps.level_idc,
                    sps := sps_bytes,
                    pps := pps_bytes } } }

/-- rtmp.rs lines 366-371: derive the codec descriptor from in-band NAL
units. -/
def get_codec_from_nalu (packet : AvcVideoPacket) : Res CodecInfo :=
  get_video_codec_info (find_parameter_sets packet.avc_data)

/-- External fmp4 crate (not under src/): the AVCDecoderConfigurationRecord
fields the source uses, modelled from the ISO layout the spec §4.4
describes; the record retains the first SPS and the first PPS entry. -/
structure AvcDecoderConfigurationRecord where
  configuration_version : Byte
  profile_indication : Byte
  profile_compatibility : Byte
  level_indication : Byte
  length_size_minus_one : Byte
  sequence_parameter_set : List Byte
  picture_parameter_set : List Byte
deriving Repr, DecidableEq

/-- AvcDecoderConfigurationRecord::read, modelled from the ISO layout: header
bytes, SPS count, first length-prefixed SPS, PPS count, first length-prefixed
PPS; truncated or empty records fail. -/
def AvcDecoderConfigurationRecord.read (bytes : List Byte) :
    Option AvcDecoderConfigurationRecord :=
  match bytes with
  | v :: p :: c :: l :: n :: nsps :: l1 :: l2 :: rest =>
      if nsps % 32 = 0 then Option.none else
      let spsLen := l1 * 256 + l2
      if rest.length < spsLen then Option.none else
      let sps := rest.take spsLen
      match rest.drop spsLen with
      | npps :: m1 :: m2 :: rest2 =>
          if npps = 0 then Option.none else
          let ppsLen := m1 * 256 + m2
          if rest2.length < ppsLen then Option.none else
          some { configuration_version := v,
                 profile_indication := p,
                 profile_compatibility := c,
                 level_indication := l,
                 length_size_minus_one := n % 4,
                 sequence_parameter_set := sps,
                 picture_parameter_set := rest2.take ppsLen }
      | _ => Option.none
  | _ => Option.none

/-- rtmp.rs lines 373-402: derive the codec descriptor from an
AVCDecoderConfigurationRecord: read the record (error on failure), parse the
first SPS after stripping its header byte and emulation prevention (error on
failure), then unwrap the pixel dimensions (panic on failure). -/
def get_codec_from_mp4 (packet : AvcVideoPacket) : Res CodecInfo :=
  match AvcDecoderConfigurationRecord.read packet.avc_data with
  | Option.none => .err "Failed to read AvcDecoderConfigurationRecord"
  | some record =>
    match SeqParameterSet.from_bytes (decode_nal record.sequence_parameter_set.tail) with
    | Option.none => .err "Failed to parse sequence parameter set"
    | some sps =>
      match sps.pixel_dimensions with
      | Option.none => .panic
      | some (width, height) =>
        .ok { name := "h264",
              properties := .video {
                width := width,
                height := height,
                extra := {
                  profile_indication := record.profile_indication,
                  profile_compatibility := record.profile_compatibility,
                  level_indication := record.level_indication,
                  sps := record.sequence_parameter_set,
                  pps := record.picture_parameter_set } } }

/-- rtmp.rs lines 455-480: the audio codec descriptor: only sound format 10
(AAC) is accepted; any other format is an anyhow error. The 2-bit rate and
1-bit size and channel fields are total. -/
def get_audio_codec_info (tag : AudioTag) : Res CodecInfo :=
  if tag.header.sound_format = 10 then
    .ok { name := "AAC",
          properties := .audio {
            sample_rate :=
              if tag.header.sound_rate = 0 then 5500
              else if tag.header.sound_rate = 1 then 11000
              else if tag.header.sound_rate = 2 then 22000
              else 44000,
            sample_bpp := if tag.header.sound_size = 0 then 8 else 16,
            sound_type := if tag.header.sound_type = 0 then .mono else .stereo } }
  else .err "Unsupported audio codec"

/-! ### Frame assembler (rtmp.rs RtmpReadFilter). Timestamps come from the
external rml_rtmp crate, whose RtmpTimestamp is an unsigned 32-bit value with
wrapping arithmetic; its subtraction is modelled as wrapping 32-bit
subtraction. -/

/-- rml_rtmp RtmpTimestamp subtraction: wrapping 32-bit subtraction of the
two timestamp values. -/
def rtmpSub (a b : Nat) : Nat :=
  (2 ^ 32 + a % 2 ^ 32 - b % 2 ^ 32) % 2 ^ 32

/-- rtmp.rs lines 42-58: the assembler state of RtmpReadFilter (the socket,
session and channel handles are I/O and carry no assembler state). The frame
backlog is the VecDeque `frames`; payloads push at the back, so the list
order is emission order. -/
structure RtmpReadFilter where
  video_stream : Option Stream
  video_time : Nat
  prev_video_time : Option Nat
  audio_stream : Option Stream
  audio_time : Nat
  prev_audio_time : Option Nat
  frames : List Frame
deriving Repr, DecidableEq

/-- rtmp.rs lines 94-110: the initial assembler state built by
RtmpReadFilter::new. -/
def RtmpReadFilter.new : RtmpReadFilter :=
  { video_stream := Option.none,
    video_time := 0,
    prev_video_time := Option.none,
    audio_stream := Option.none,
    audio_time := 0,
    prev_audio_time := Option.none,
    frames := [] }

/-- rtmp.rs lines 113-123: derive the audio codec descriptor and install the
audio stream descriptor (id 1, RTMP timebase). -/
def assign_audio_stream (st : RtmpReadFilter) (tag : AudioTag) : Res RtmpReadFilter :=
  match get_audio_codec_info tag with
  | .ok codec_info =>
      .ok { st with audio_stream := some { id := 1, codec := codec_info, timebase := RTMP_TIMEBASE } }
  | .err m => .err m
  | .panic => .panic

/-- rtmp.rs lines 125-143: derive the video codec descriptor (sequence-header
packets via the mp4 record, NALU packets via the in-band scan, anything else
is an anyhow bail) and install the video stream descriptor (id 0, RTMP
timebase). -/
def assign_video_stream (st : RtmpReadFilter) (_tag : VideoTag)
    (packet : AvcVideoPacket) : Res RtmpReadFilter :=
  match
    (match packet.packet_type with
     | .sequenceHeader => get_codec_from_mp4 packet
     | .nalu => get_codec_from_nalu packet
     | _ => .err "Unsupported AVC packet type")
  with
  | .ok codec_info =>
      .ok { st with video_stream := some { id := 0, codec := codec_info, timebase := RTMP_TIMEBASE } }
  | .err m => .err m
  | .panic => .panic

/-- rtmp.rs lines 145-184: process one video payload: parse the tag; if no
video descriptor exists yet, derive one and return without emitting; else
advance the accumulated media time by the wrapping timestamp delta and
enqueue a frame (dependency None iff the tag frame type is Key, payload the
AVC body, stream the video descriptor), then record the peer timestamp. -/
def add_video_frame (st : RtmpReadFilter) (data : List Byte) (timestamp : Nat) :
    Res RtmpReadFilter :=
  match parse_video_tag data with
  | .err m => .err m
  | .panic => .panic
  | .ok (video_tag, video_packet) =>
    match st.video_stream with
    | Option.none => assign_video_stream st video_tag video_packet
    | some vs =>
      let prev_video_time :=
        match st.prev_video_time with
        | Option.none => some timestamp
        | some p => some p
      let diff := rtmpSub timestamp (prev_video_time.getD 0)
      let video_time := st.video_time + diff
      let time : MediaTime :=
        { pts := video_time, dts := Option.none, timebase := RTMP_TIMEBASE }
      let frame : Frame :=
        { time := time,
          dependency :=
            if video_tag.header.frame_type = FrameType.key then FrameDependency.none
            else FrameDependency.backwards,
          buffer := video_packet.avc_data,
          stream := vs }
      .ok { st with
            frames := st.frames ++ [frame],
            prev_video_time := some timestamp,
            video_time := video_time }

/-- rtmp.rs lines 186-222: process one audio payload: parse the tag; if no
audio descriptor exists yet, derive one and return without emitting; else
advance the accumulated audio time by the wrapping timestamp delta and
enqueue a frame (dependency None, payload the whole incoming data, stream
the audio descriptor), then record the peer timestamp. -/
def add_audio_frame (st : RtmpReadFilter) (data : List Byte) (timestamp : Nat) :
    Res RtmpReadFilter :=
  match parse_audio_tag data with
  | .err m => .err m
  | .panic => .panic
  | .ok audio_tag =>
    match st.audio_stream with
    | Option.none => assign_audio_stream st audio_tag
    | some astr =>
      let prev_audio_time :=
        match st.prev_audio_time with
        | Option.none => some timestamp
        | some p => some p
      let diff := rtmpSub timestamp (prev_audio_time.getD 0)
      let audio_time := st.audio_time + diff
      let time : MediaTime :=
        { pts := audio_time, dts := Option.none, timebase := RTMP_TIMEBASE }
      let frame : Frame :=
        { time := time,
          dependency := FrameDependency.none,
          buffer := data,
          stream := astr }
      .ok { st with
            frames := st.frames ++ [frame],
            prev_audio_time := some timestamp,
            audio_time := audio_time }

/-! ### Pipeline driver (rtmp.rs lines 224-341). The byte → RTMP-session
decoding of the external rml_rtmp engine is abstracted as the sequence of
events it raises; outbound packets and unhandleable messages carry no
assembler state and are dropped from the event model. -/

/-- rml_rtmp StreamMetadata: the two fields the driver consults (rtmp.rs
lines 328-329). Absence of a field means the substream is not expected. -/
structure StreamMetadata where
  video_width : Option Nat
  audio_sample_rate : Option Nat
deriving Repr, DecidableEq

/-- The rml_rtmp server-session events the source matches on (rtmp.rs lines
237-246 and 255-272); all other raised events are ignored by the source. -/
inductive ServerSessionEvent where
  | streamMetadataChanged (metadata : StreamMetadata)
  | videoDataReceived (data : List Byte) (timestamp : Nat)
  | audioDataReceived (data : List Byte) (timestamp : Nat)
  | otherEvent
deriving Repr, DecidableEq

/-- rtmp.rs lines 254-276: dispatch one raised event to the assembler; events
other than audio and video data leave the state unchanged. -/
def process_event (st : RtmpReadFilter) : ServerSessionEvent → Res RtmpReadFilter
  | .audioDataReceived data timestamp => add_audio_frame st data timestamp
  | .videoDataReceived data timestamp => add_video_frame st data timestamp
  | _ => .ok st

/-- Process a list of raised events in order; a fatal error or panic ends the
session, leaving the state (and its emitted frames) as at the failure
point. -/
def runEvents : RtmpReadFilter → List ServerSessionEvent → RtmpReadFilter
  | st, [] => st
  | st, e :: rest =>
    match process_event st e with
    | .ok st' => runEvents st' rest
    | _ => st

/-- Process a list of raised events in order, none if a fatal error or panic
occurred. -/
def runOk : RtmpReadFilter → List ServerSessionEvent → Option RtmpReadFilter
  | st, [] => some st
  | st, e :: rest =>
    match process_event st e with
    | .ok st' => runOk st' rest
    | _ => Option.none

/-- rtmp.rs lines 224-252: pump input until a StreamMetadataChanged event is
raised, returning the metadata and the remaining input; events before the
metadata are dropped (the source's match ignores them). If input ends first
the source loops forever awaiting bytes. -/
def wait_for_metadata : List ServerSessionEvent →
    Option (StreamMetadata × List ServerSessionEvent)
  | [] => Option.none
  | .streamMetadataChanged metadata :: rest => some (metadata, rest)
  | _ :: rest => wait_for_metadata rest

/-- The loop condition of rtmp.rs lines 331-333: some expected substream
still lacks its stream descriptor. -/
def pumpCond (expecting_video expecting_audio : Bool) (st : RtmpReadFilter) : Bool :=
  (expecting_video && st.video_stream.isNone) ||
  (expecting_audio && st.audio_stream.isNone)

/-- Outcome of the descriptor-await loop: the state and leftover input at
loop exit, a fatal error, a panic, or input exhausted while still waiting
(the source would block awaiting more bytes). -/
inductive PumpResult where
  | done (st : RtmpReadFilter) (rest : List ServerSessionEvent)
  | err (msg : String)
  | panic
  | blocked
deriving Repr, DecidableEq

/-- rtmp.rs lines 331-335: fetch and process input until every expected
substream has a stream descriptor. -/
def pump (expecting_video expecting_audio : Bool) :
    List ServerSessionEvent → RtmpReadFilter → PumpResult
  | events, st =>
    if pumpCond expecting_video expecting_audio st then
      match events with
      | [] => .blocked
      | e :: rest =>
        match process_event st e with
        | .ok st' => pump expecting_video expecting_audio rest st'
        | .err m => .err m
        | .panic => .panic
    else
      .done st events

/-- Result of the driver's start operation. -/
inductive StartResult where
  | ok (s : Stream) (st : RtmpReadFilter) (rest : List ServerSessionEvent)
  | err (msg : String)
  | panic
  | blocked
deriving Repr, DecidableEq

/-- rtmp.rs lines 323-341: the driver's start: await the metadata, record
which substreams are expected from field presence, pump until every expected
substream has a descriptor, then unwrap and return the video stream
descriptor (a panic when it is absent). -/
def start (events : List ServerSessionEvent) : StartResult :=
  match wait_for_metadata events with
  | Option.none => .blocked
  | some (metadata, rest) =>
    let expecting_video := metadata.video_width.isSome
    let expecting_audio := metadata.audio_sample_rate.isSome
    match pump expecting_video expecting_audio rest RtmpReadFilter.new with
    | .done st rest' =>
      match st.video_stream with
      | some s => .ok s st rest'
      | Option.none => .panic
    | .err m => .err m
    | .panic => .panic
    | .blocked => .blocked

/-! ### Concrete payloads used to exercise the model. -/

/-- A key-frame (0x17) video NALU payload whose AVC body carries an in-band
SPS (NAL type 7) and PPS (NAL type 8) behind Annex-B start codes: processing
it while no video descriptor exists creates the descriptor. -/
def descData : List Byte := [23, 1, 0, 0, 0, 0, 0, 1, 103, 66, 0, 30, 170, 0, 0, 1, 104, 206, 56, 128]

/-- A key-frame (0x17) video NALU payload. -/
def keyData : List Byte := [23, 1, 0, 0, 0, 101, 77]

/-- An inter-frame (0x27) video NALU payload. -/
def interData : List Byte := [39, 1, 0, 0, 0, 65, 88]

/-- A video payload with AVC packet type 2 (end-of-sequence), empty body. -/
def eosData : List Byte := [23, 2, 0, 0, 0]

/-- An AAC audio tag (header byte 0xAF: format 10, 44 kHz, 16-bit, stereo). -/
def aacData : List Byte := [175, 1, 2]

/-- An MP3 audio tag (header byte 0x2F: format 2). -/
def mp3Data : List Byte := [47, 9, 9]

/-- A video NALU payload whose AVC body holds a single non-SPS NAL
(type 1): the in-band scan finds no SPS. -/
def noSpsData : List Byte := [23, 1, 0, 0, 0, 0, 0, 1, 65, 170]

/-- The assembler state after the video descriptor was created from
`descData` (and nothing else was processed). -/
def stDesc : RtmpReadFilter :=
  match add_video_frame RtmpReadFilter.new descData 0 with
  | .ok st => st
  | _ => RtmpReadFilter.new

/-- The assembler state after the audio descriptor was created from
`aacData` (and nothing else was processed). -/
def stAudioDesc : RtmpReadFilter :=
  match add_audio_frame RtmpReadFilter.new aacData 0 with
  | .ok st => st
  | _ => RtmpReadFilter.new

/-! ### Helper lemmas shared by the claim proofs. -/

/-- A successful video tag parse: the AVC body is the payload with the five
header bytes (1 FLV video tag header + 1 packet type + 3 composition time)
stripped, and the tag's frame type is decoded from the first byte. -/
theorem parse_video_tag_ok (data : List Byte) (tag : VideoTag) (pkt : AvcVideoPacket)
    (h : parse_video_tag data = .ok (tag, pkt)) :
    pkt.avc_data = data.drop 5 ∧
    tag.header.frame_type = FrameType.ofNibble (data.headD 0 / 16) := by
  rcases data with _ | ⟨b, _ | ⟨t, _ | ⟨c1, _ | ⟨c2, _ | ⟨c3, r⟩⟩⟩⟩⟩ <;>
    simp [parse_video_tag, VideoTag.parse, avc_video_packet] at h
  obtain ⟨h1, h2⟩ := h
  subst h1; subst h2; simp

/-- A successful audio tag parse: the body is the tail of the payload and the
sound format is the high nibble of the first byte. -/
theorem parse_audio_tag_ok (data : List Byte) (tag : AudioTag)
    (h : parse_audio_tag data = .ok tag) :
    tag.body = data.tail ∧ tag.header.sound_format = data.headD 0 / 16 := by
  rcases data with _ | ⟨b, r⟩ <;>
    simp [parse_audio_tag, AudioTag.parse] at h
  subst h; simp

/-- A successful assign_video_stream only installs the video descriptor
(id 0, RTMP timebase); every other state component is untouched. -/
theorem assign_video_stream_ok (st : RtmpReadFilter) (tag : VideoTag)
    (pkt : AvcVideoPacket) (st' : RtmpReadFilter)
    (h : assign_video_stream st tag pkt = .ok st') :
    ∃ ci, st' = { st with video_stream := some { id := 0, codec := ci, timebase := RTMP_TIMEBASE } } := by
  unfold assign_video_stream at h
  split at h
  · exact ⟨_, by cases h; rfl⟩
  · cases h
  · cases h

/-- A successful assign_audio_stream only installs the audio descriptor
(id 1, RTMP timebase); every other state component is untouched. -/
theorem assign_audio_stream_ok (st : RtmpReadFilter) (tag : AudioTag)
    (st' : RtmpReadFilter) (h : assign_audio_stream st tag = .ok st') :
    ∃ ci, st' = { st with audio_stream := some { id := 1, codec := ci, timebase := RTMP_TIMEBASE } } := by
  unfold assign_audio_stream at h
  split at h
  · exact ⟨_, by cases h; rfl⟩
  · cases h
  · cases h

/-- Case analysis of a successful add_video_frame: either the payload created
the video descriptor (no frame, clock untouched), or the descriptor existed
and exactly one frame was appended, with the wrapping delta added to the
accumulated media time. -/
theorem add_video_frame_ok (st : RtmpReadFilter) (data : List Byte) (ts : Nat)
    (st' : RtmpReadFilter) (h : add_video_frame st data ts = .ok st') :
    (st.video_stream = Option.none ∧ st'.frames = st.frames ∧
      st'.prev_video_time = st.prev_video_time ∧ st'.video_time = st.video_time ∧
      st'.audio_stream = st.audio_stream ∧ st'.audio_time = st.audio_time ∧
      st'.prev_audio_time = st.prev_audio_time ∧
      ∃ ci, st'.video_stream = some { id := 0, codec := ci, timebase := RTMP_TIMEBASE }) ∨
    (∃ vs tag pkt,
      st.video_stream = some vs ∧ parse_video_tag data = .ok (tag, pkt) ∧
      st'.video_stream = st.video_stream ∧ st'.audio_stream = st.audio_stream ∧
      st'.audio_time = st.audio_time ∧ st'.prev_audio_time = st.prev_audio_time ∧
      st'.prev_video_time = some ts ∧
      st'.video_time = st.video_time + rtmpSub ts (st.prev_video_time.getD ts) ∧
      st'.frames = st.frames ++ [{
        time := { pts := st'.video_time, dts := Option.none, timebase := RTMP_TIMEBASE },
        dependency := if tag.header.frame_type = FrameType.key then FrameDependency.none
                      else FrameDependency.backwards,
        buffer := pkt.avc_data,
        stream := vs }]) := by
  unfold add_video_frame at h
  split at h
  · cases h
  · cases h
  · rename_i tag pkt heq
    split at h
    · rename_i hnone
      left
      obtain ⟨ci, rfl⟩ := assign_video_stream_ok st tag pkt st' h
      exact ⟨hnone, rfl, rfl, rfl, rfl, rfl, rfl, ci, rfl⟩
    · rename_i vs hsome
      right
      refine ⟨vs, tag, pkt, hsome, heq, ?_⟩
      cases h
      cases hp : st.prev_video_time <;> simp [hp]

/-- Case analysis of a successful add_audio_frame: either the payload created
the audio descriptor (no frame, clock untouched), or the descriptor existed
and exactly one frame was appended, with the wrapping delta added to the
accumulated audio time. -/
theorem add_audio_frame_ok (st : RtmpReadFilter) (data : List Byte) (ts : Nat)
    (st' : RtmpReadFilter) (h : add_audio_frame st data ts = .ok st') :
    (st.audio_stream = Option.none ∧ st'.frames = st.frames ∧
      st'.prev_audio_time = st.prev_audio_time ∧ st'.audio_time = st.audio_time ∧
      st'.video_stream = st.video_stream ∧ st'.video_time = st.video_time ∧
      st'.prev_video_time = st.prev_video_time ∧
      ∃ ci, st'.audio_stream = some { id := 1, codec := ci, timebase := RTMP_TIMEBASE }) ∨
    (∃ astr tag,
      st.audio_stream = some astr ∧ parse_audio_tag data = .ok tag ∧
      st'.audio_stream = st.audio_stream ∧ st'.video_stream = st.video_stream ∧
      st'.video_time = st.video_time ∧ st'.prev_video_time = st.prev_video_time ∧
      st'.prev_audio_time = some ts ∧
      st'.audio_time = st.audio_time + rtmpSub ts (st.prev_audio_time.getD ts) ∧
      st'.frames = st.frames ++ [{
        time := { pts := st'.audio_time, dts := Option.none, timebase := RTMP_TIMEBASE },
        dependency := FrameDependency.none,
        buffer := data,
        stream := astr }]) := by
  unfold add_audio_frame at h
  split at h
  · cases h
  · cases h
  · rename_i tag heq
    split at h
    · rename_i hnone
      left
      obtain ⟨ci, rfl⟩ := assign_audio_stream_ok st tag st' h
      exact ⟨hnone, rfl, rfl, rfl, rfl, rfl, rfl, ci, rfl⟩
    · rename_i astr hsome
      right
      refine ⟨astr, tag, hsome, heq, ?_⟩
      cases h
      cases hp : st.prev_audio_time <;> simp [hp]

/-! ### Claim C1 -/

/-- C1 counterexample: the spec's timestamp-reset scenario on the code. After
frames at timestamps 0, 33, 66 a payload at timestamp 60 does NOT yield
pts = 66: the delta is not clamped to 0 but wraps modulo 2 ^ 32, giving
pts = 66 + (2 ^ 32 - 6) = 4294967356, and the following payload at 100
yields 4294967396, not 106. -/
theorem timestamp_delta_clamp_counterexample :
    ((runEvents RtmpReadFilter.new
      [.videoDataReceived descData 0, .videoDataReceived keyData 0,
       .videoDataReceived interData 33, .videoDataReceived interData 66,
       .videoDataReceived interData 60, .videoDataReceived interData 100]).frames.map
        (fun f => f.time.pts)) = [0, 33, 66, 4294967356, 4294967396] ∧
    (4294967356 : Nat) ≠ 66 := by
  constructor <;> decide

/-- C1 (amended): for every video or audio payload processed after the
substream's stream descriptor and a previously recorded timestamp exist, the
timestamp delta added to the accumulated media time is the wrapping 32-bit
difference (t - prev) mod 2 ^ 32; a smaller incoming timestamp wraps to a
huge positive delta instead of clamping to 0, and prev is updated to t. -/
theorem timestamp_delta_wraps (st : RtmpReadFilter) (data : List Byte) (ts : Nat)
    (st' : RtmpReadFilter) :
    (∀ vs p, st.video_stream = some vs → st.prev_video_time = some p →
      add_video_frame st data ts = .ok st' →
      st'.video_time = st.video_time + (2 ^ 32 + ts % 2 ^ 32 - p % 2 ^ 32) % 2 ^ 32 ∧
      st'.prev_video_time = some ts) ∧
    (∀ astr p, st.audio_stream = some astr → st.prev_audio_time = some p →
      add_audio_frame st data ts = .ok st' →
      st'.audio_time = st.audio_time + (2 ^ 32 + ts % 2 ^ 32 - p % 2 ^ 32) % 2 ^ 32 ∧
      st'.prev_audio_time = some ts) := by
  constructor
  · intro vs p hvs hprev h
    rcases add_video_frame_ok st data ts st' h with
      ⟨hnone, _⟩ | ⟨vs', tag, pkt, _, _, _, _, _, _, hprev', htime, _⟩
    · rw [hvs] at hnone; cases hnone
    · rw [hprev] at htime
      exact ⟨htime, hprev'⟩
  · intro astr p has hprev h
    rcases add_audio_frame_ok st data ts st' h with
      ⟨hnone, _⟩ | ⟨astr', tag, _, _, _, _, _, _, hprev', htime, _⟩
    · rw [has] at hnone; cases hnone
    · rw [hprev] at htime
      exact ⟨htime, hprev'⟩

/-- The assembler state after `stDesc` processed a key frame at timestamp 66
(so prev = 66). -/
def stPrev66 : RtmpReadFilter :=
  match add_video_frame stDesc keyData 66 with
  | .ok st => st
  | _ => RtmpReadFilter.new

/-- The assembler state after `stPrev66` processed an inter frame at the
smaller timestamp 60. -/
def stWrap : RtmpReadFilter :=
  match add_video_frame stPrev66 interData 60 with
  | .ok st => st
  | _ => RtmpReadFilter.new

/-- C1 witness: a concrete instance of the amended behaviour: from a state
with prev = 66, a payload at timestamp 60 advances the accumulated media
time by (2 ^ 32 + 60 - 66) mod 2 ^ 32 = 4294967290. -/
theorem timestamp_delta_wraps_witness :
    add_video_frame stPrev66 interData 60 = .ok stWrap ∧
    stPrev66.prev_video_time = some 66 ∧
    stWrap.video_time = stPrev66.video_time + (2 ^ 32 + 60 % 2 ^ 32 - 66 % 2 ^ 32) % 2 ^ 32 ∧
    stWrap.prev_video_time = some 60 := by
  refine ⟨rfl, rfl, ?_, ?_⟩
  · exact ((timestamp_delta_wraps stPrev66 interData 60 stWrap).1 _ 66 rfl rfl rfl).1
  · exact ((timestamp_delta_wraps stPrev66 interData 60 stWrap).1 _ 66 rfl rfl rfl).2

/-! ### Claim C2 -/

/-- C2 counterexample: a session whose first video payload creates the
descriptor and whose second video payload is an inter (non-key) tag: the
first emitted video frame carries dependency Backwards, it is not dropped. -/
theorem first_video_frame_dependency_counterexample :
    ((runEvents RtmpReadFilter.new
      [.videoDataReceived descData 0, .videoDataReceived interData 0]).frames.map
        (fun f => f.dependency)) = [FrameDependency.backwards] ∧
    FrameDependency.backwards ≠ FrameDependency.none := by
  constructor <;> decide

/-- C2 (amended): the first video payload processed after stream-descriptor
creation is always emitted (never dropped); the emitted frame's dependency is
None exactly when the payload's tag frame type is Key, and Backwards
otherwise. -/
theorem first_post_descriptor_video_emitted (st : RtmpReadFilter) (data : List Byte)
    (ts : Nat) (st' : RtmpReadFilter) (vs : Stream) (tag : VideoTag) (pkt : AvcVideoPacket)
    (hvs : st.video_stream = some vs) (hfr : st.frames = [])
    (hp : parse_video_tag data = .ok (tag, pkt))
    (hok : add_video_frame st data ts = .ok st') :
    ∃ f, st'.frames = [f] ∧
      (f.dependency = FrameDependency.none ↔ tag.header.frame_type = FrameType.key) := by
  rcases add_video_frame_ok st data ts st' hok with
    ⟨hnone, _⟩ | ⟨vs', tag', pkt', hsome, hp', _, _, _, _, _, _, hfr'⟩
  · rw [hvs] at hnone; cases hnone
  · have hpp := Res.ok.inj (hp.symm.trans hp')
    injection hpp with h1 h2
    subst h1; subst h2
    refine ⟨_, by rw [hfr', hfr]; rfl, ?_⟩
    by_cases hc : tag.header.frame_type = FrameType.key <;> simp [hc]

/-- C2 witness: a concrete first post-descriptor payload with an inter frame
type: the emitted frame exists and its dependency is not None. -/
theorem first_post_descriptor_video_emitted_witness :
    ∃ st', add_video_frame stDesc interData 0 = .ok st' ∧
      ∃ f, st'.frames = [f] ∧
        (f.dependency = FrameDependency.none ↔ FrameType.inter = FrameType.key) := by
  refine ⟨_, rfl, ?_⟩
  exact first_post_descriptor_video_emitted stDesc interData 0 _ _ _ _ rfl rfl rfl rfl

/-! ### Claim C3 -/

/-- C3: evaluating the code at the failing input: a video NALU payload with
no SPS NAL unit, arriving while no video descriptor exists, makes the frame
assembler panic (Option::unwrap of the absent SPS inside
get_video_codec_info) instead of discarding the payload and continuing. The
second conjunct confirms the in-band scan of this payload finds no SPS. -/
theorem missing_sps_panics :
    add_video_frame RtmpReadFilter.new noSpsData 0 = Res.panic ∧
    (find_parameter_sets (noSpsData.drop 5)).sps = Option.none := by
  constructor <;> decide

/-! ### Claim C4 -/

/-- C4 counterexample: a video payload with AVC packet type 2
(end-of-sequence) arriving before the video descriptor exists is not
silently discarded: assign_video_stream bails with a fatal error. -/
theorem end_of_sequence_counterexample :
    add_video_frame RtmpReadFilter.new eosData 0 = .err "Unsupported AVC packet type" := by
  rfl

/-- C4 (amended): a video payload with AVC packet type 2 arriving before the
video descriptor exists causes the fatal error "Unsupported AVC packet type";
arriving after the descriptor exists it is processed like any other video
payload and a frame is enqueued for it, not discarded. -/
theorem end_of_sequence_behaviour (st : RtmpReadFilter) (data : List Byte) (ts : Nat)
    (tag : VideoTag) (pkt : AvcVideoPacket)
    (hp : parse_video_tag data = .ok (tag, pkt))
    (hty : pkt.packet_type = AvcPacketType.endOfSequence) :
    (st.video_stream = Option.none →
      add_video_frame st data ts = .err "Unsupported AVC packet type") ∧
    (∀ vs, st.video_stream = some vs →
      ∃ st' f, add_video_frame st data ts = .ok st' ∧ st'.frames = st.frames ++ [f]) := by
  constructor
  · intro hnone
    simp [add_video_frame, hp, hnone, assign_video_stream, hty]
  · intro vs hvs
    simp only [add_video_frame, hp, hvs]
    exact ⟨_, _, rfl, rfl⟩

/-- C4 witness: both arms of the amended behaviour at concrete inputs: the
fatal error before the descriptor, and an enqueued frame after it. -/
theorem end_of_sequence_behaviour_witness :
    add_video_frame RtmpReadFilter.new eosData 0 = .err "Unsupported AVC packet type" ∧
    ∃ st' f, add_video_frame stDesc eosData 0 = .ok st' ∧
      st'.frames = stDesc.frames ++ [f] := by
  constructor
  · exact (end_of_sequence_behaviour RtmpReadFilter.new eosData 0 _ _ rfl rfl).1 rfl
  · exact (end_of_sequence_behaviour stDesc eosData 0 _ _ rfl rfl).2 _ rfl

/-! ### Claim C5 -/

/-- C5 counterexample: a session whose first audio tag is AAC (creating the
descriptor) and whose second audio tag is MP3 (format 2): the non-AAC tag
does not terminate the session; it is emitted as a frame and processing
returns ok. -/
theorem non_aac_after_descriptor_counterexample :
    ((runEvents RtmpReadFilter.new
      [.audioDataReceived aacData 0, .audioDataReceived mp3Data 10]).frames.map
        (fun f => f.buffer)) = [mp3Data] ∧
    runOk RtmpReadFilter.new
      [.audioDataReceived aacData 0, .audioDataReceived mp3Data 10] ≠ Option.none := by
  constructor <;> decide

/-- C5 (amended): the FLV sound format is checked only while no audio stream
descriptor exists: a non-AAC tag there returns the fatal "Unsupported audio
codec" error; once the audio descriptor exists, later tags are processed
without any format check and are emitted as frames. -/
theorem audio_format_checked_only_at_descriptor_creation (st : RtmpReadFilter)
    (data : List Byte) (ts : Nat) (tag : AudioTag)
    (hp : parse_audio_tag data = .ok tag) :
    (st.audio_stream = Option.none → tag.header.sound_format ≠ 10 →
      add_audio_frame st data ts = .err "Unsupported audio codec") ∧
    (∀ astr, st.audio_stream = some astr →
      ∃ st' f, add_audio_frame st data ts = .ok st' ∧ st'.frames = st.frames ++ [f]) := by
  constructor
  · intro hnone hfmt
    simp [add_audio_frame, hp, hnone, assign_audio_stream, get_audio_codec_info, hfmt]
  · intro astr has
    simp only [add_audio_frame, hp, has]
    exact ⟨_, _, rfl, rfl⟩

/-- C5 witness: both arms at concrete inputs: the MP3 tag is fatal while no
audio descriptor exists, and is emitted as a frame once it does. -/
theorem audio_format_checked_witness :
    add_audio_frame RtmpReadFilter.new mp3Data 0 = .err "Unsupported audio codec" ∧
    ∃ st' f, add_audio_frame stAudioDesc mp3Data 10 = .ok st' ∧
      st'.frames = stAudioDesc.frames ++ [f] := by
  constructor
  · exact (audio_format_checked_only_at_descriptor_creation RtmpReadFilter.new mp3Data 0 _
      rfl).1 rfl (by decide)
  · exact (audio_format_checked_only_at_descriptor_creation stAudioDesc mp3Data 10 _
      rfl).2 _ rfl

/-! ### Claim C7 -/

/-- C7 counterexample: the frame emitted for an audio tag carries the ENTIRE
incoming tag data, the 1-byte FLV audio header included, not the audio tag
body: for the AAC tag [175, 1, 2] the emitted payload is [175, 1, 2] while
the parsed tag body is [1, 2]. -/
theorem audio_payload_includes_header_counterexample :
    ((runEvents RtmpReadFilter.new
      [.audioDataReceived aacData 0, .audioDataReceived aacData 10]).frames.map
        (fun f => f.buffer)) = [[175, 1, 2]] ∧
    parse_audio_tag aacData = .ok ⟨⟨10, 3, 1, 1⟩, [1, 2]⟩ ∧
    ([175, 1, 2] : List Byte) ≠ [1, 2] := by
  refine ⟨by decide, by decide, by decide⟩

/-- C7 (amended): every frame the assembler emits has dts absent, dependency
None exactly when the payload is audio or a video tag with frame type Key
(Backwards otherwise), payload bytes equal to the AVC NALU body with the
5-byte FLV/AVC-packet header stripped for video and equal to the ENTIRE
incoming audio tag data (1-byte header included) for audio, and its stream
field set to the descriptor of its substream. -/
theorem emitted_frame_fields (st : RtmpReadFilter) (data : List Byte) (ts : Nat)
    (st' : RtmpReadFilter) (f : Frame) :
    (add_video_frame st data ts = .ok st' → st'.frames = st.frames ++ [f] →
      f.time.dts = Option.none ∧
      f.buffer = data.drop 5 ∧
      st.video_stream = some f.stream ∧
      ∀ tag pkt, parse_video_tag data = .ok (tag, pkt) →
        (f.dependency = FrameDependency.none ↔ tag.header.frame_type = FrameType.key)) ∧
    (add_audio_frame st data ts = .ok st' → st'.frames = st.frames ++ [f] →
      f.time.dts = Option.none ∧ f.dependency = FrameDependency.none ∧
      f.buffer = data ∧ st.audio_stream = some f.stream) := by
  constructor
  · intro hok hfr
    rcases add_video_frame_ok st data ts st' hok with
      ⟨_, hsame, _⟩ | ⟨vs, tag, pkt, hsome, hp, _, _, _, _, _, _, hfr'⟩
    · rw [hfr] at hsame
      exact absurd hsame.symm (by simp)
    · rw [hfr] at hfr'
      have hf := List.head_eq_of_cons_eq (List.append_cancel_left hfr')
      subst hf
      refine ⟨rfl, ?_, by rw [hsome], ?_⟩
      · exact (parse_video_tag_ok data tag pkt hp).1
      · intro tag0 pkt0 hp0
        have hpp := Res.ok.inj (hp.symm.trans hp0)
        injection hpp with h1 h2
        subst h1
        by_cases hc : tag.header.frame_type = FrameType.key <;> simp [hc]
  · intro hok hfr
    rcases add_audio_frame_ok st data ts st' hok with
      ⟨_, hsame, _⟩ | ⟨astr, tag, hsome, hp, _, _, _, _, _, _, hfr'⟩
    · rw [hfr] at hsame
      exact absurd hsame.symm (by simp)
    · rw [hfr] at hfr'
      have hf := List.head_eq_of_cons_eq (List.append_cancel_left hfr')
      subst hf
      exact ⟨rfl, rfl, rfl, by rw [hsome]⟩

/-- C7 witness: concrete emissions of both kinds: a video frame whose payload
is the input with 5 bytes stripped, and an audio frame whose payload is the
whole input. -/
theorem emitted_frame_fields_witness :
    (∃ st' f, add_video_frame stDesc keyData 0 = .ok st' ∧ st'.frames = stDesc.frames ++ [f] ∧
      f.time.dts = Option.none ∧ f.buffer = keyData.drop 5 ∧ stDesc.video_stream = some f.stream) ∧
    (∃ st' f, add_audio_frame stAudioDesc aacData 0 = .ok st' ∧
      st'.frames = stAudioDesc.frames ++ [f] ∧
      f.time.dts = Option.none ∧ f.dependency = FrameDependency.none ∧ f.buffer = aacData ∧
      stAudioDesc.audio_stream = some f.stream) := by
  constructor
  · refine ⟨_, _, rfl, rfl, ?_⟩
    have h := (emitted_frame_fields stDesc keyData 0 _ _).1 rfl rfl
    exact ⟨h.1, h.2.1, h.2.2.1⟩
  · refine ⟨_, _, rfl, rfl, ?_⟩
    exact (emitted_frame_fields stAudioDesc aacData 0 _ _).2 rfl rfl

/-! ### Claim C8 -/

/-- C8: a payload that triggers stream-descriptor creation emits no frame and
leaves the substream's prev timestamp and accumulated media time unchanged;
moreover any payload that does append a frame was processed while its
substream's descriptor already existed. -/
theorem descriptor_creation_silent (st : RtmpReadFilter) (data : List Byte)
    (ts : Nat) (st' : RtmpReadFilter) :
    (st.video_stream = Option.none → add_video_frame st data ts = .ok st' →
      st'.frames = st.frames ∧ st'.prev_video_time = st.prev_video_time ∧
      st'.video_time = st.video_time) ∧
    (st.audio_stream = Option.none → add_audio_frame st data ts = .ok st' →
      st'.frames = st.frames ∧ st'.prev_audio_time = st.prev_audio_time ∧
      st'.audio_time = st.audio_time) ∧
    (add_video_frame st data ts = .ok st' → st'.frames ≠ st.frames →
      st.video_stream.isSome = true) ∧
    (add_audio_frame st data ts = .ok st' → st'.frames ≠ st.frames →
      st.audio_stream.isSome = true) := by
  refine ⟨?_, ?_, ?_, ?_⟩
  · intro hnone hok
    rcases add_video_frame_ok st data ts st' hok with
      ⟨_, hsame, hprev, htime, _⟩ | ⟨vs, _, _, hsome, _⟩
    · exact ⟨hsame, hprev, htime⟩
    · rw [hnone] at hsome; cases hsome
  · intro hnone hok
    rcases add_audio_frame_ok st data ts st' hok with
      ⟨_, hsame, hprev, htime, _⟩ | ⟨astr, _, hsome, _⟩
    · exact ⟨hsame, hprev, htime⟩
    · rw [hnone] at hsome; cases hsome
  · intro hok hdiff
    rcases add_video_frame_ok st data ts st' hok with
      ⟨_, hsame, _⟩ | ⟨vs, _, _, hsome, _⟩
    · exact absurd hsame hdiff
    · rw [hsome]; rfl
  · intro hok hdiff
    rcases add_audio_frame_ok st data ts st' hok with
      ⟨_, hsame, _⟩ | ⟨astr, _, hsome, _⟩
    · exact absurd hsame hdiff
    · rw [hsome]; rfl

/-- C8 witness: the concrete descriptor-creating payloads: no frame appears
and the clocks are untouched, while a post-descriptor payload that appends a
frame runs with the descriptor present. -/
theorem descriptor_creation_silent_witness :
    (add_video_frame RtmpReadFilter.new descData 7 = .ok stDesc ∧
      stDesc.frames = RtmpReadFilter.new.frames ∧
      stDesc.prev_video_time = RtmpReadFilter.new.prev_video_time ∧
      stDesc.video_time = RtmpReadFilter.new.video_time) ∧
    (add_audio_frame RtmpReadFilter.new aacData 7 = .ok stAudioDesc ∧
      stAudioDesc.frames = RtmpReadFilter.new.frames ∧
      stAudioDesc.prev_audio_time = RtmpReadFilter.new.prev_audio_time ∧
      stAudioDesc.audio_time = RtmpReadFilter.new.audio_time) := by
  constructor
  · refine ⟨rfl, ?_⟩
    exact (descriptor_creation_silent RtmpReadFilter.new descData 7 stDesc).1 rfl rfl
  · refine ⟨rfl, ?_⟩
    exact (descriptor_creation_silent RtmpReadFilter.new aacData 7 stAudioDesc).2.1 rfl rfl

/-! ### Claim C6 -/

/-- The sequence of pts values carried by the frames of substream `i`
(video = 0, audio = 1), in emission order. -/
def substreamPts (st : RtmpReadFilter) (i : Nat) : List Nat :=
  (st.frames.filter (fun f => f.stream.id == i)).map (fun f => f.time.pts)

/-- Timing invariant of the assembler state: descriptors carry their fixed
substream ids, every emitted pts is bounded by its substream's accumulated
media time, and each substream's pts sequence is non-decreasing. -/
def TimeInv (st : RtmpReadFilter) : Prop :=
  (∀ s, st.video_stream = some s → s.id = 0) ∧
  (∀ s, st.audio_stream = some s → s.id = 1) ∧
  (∀ f ∈ st.frames, (f.stream.id = 0 → f.time.pts ≤ st.video_time) ∧
    (f.stream.id = 1 → f.time.pts ≤ st.audio_time)) ∧
  List.Chain' (· ≤ ·) (substreamPts st 0) ∧
  List.Chain' (· ≤ ·) (substreamPts st 1)

/-- Appending an upper bound to a non-decreasing list keeps it
non-decreasing. -/
theorem chain'_append_singleton {l : List Nat} {a : Nat}
    (h : List.Chain' (· ≤ ·) l) (ha : ∀ x ∈ l, x ≤ a) :
    List.Chain' (· ≤ ·) (l ++ [a]) := by
  refine List.Chain'.append h (List.chain'_singleton a) ?_
  intro x hx y hy
  obtain ⟨hne, hlast⟩ := List.mem_getLast?_eq_getLast hx
  have hy' : a = y := by simpa using hy
  subst hy'
  exact ha x (hlast ▸ List.getLast_mem hne)

/-- add_video_frame preserves the timing invariant. -/
theorem timeInv_add_video (st : RtmpReadFilter) (data : List Byte) (ts : Nat)
    (st' : RtmpReadFilter) (hok : add_video_frame st data ts = .ok st')
    (hinv : TimeInv st) : TimeInv st' := by
  obtain ⟨hvid, haud, hbound, hch0, hch1⟩ := hinv
  rcases add_video_frame_ok st data ts st' hok with
    ⟨hnone, hsame, hprev, htime, hastream, hatime, hap, ci, hset⟩ |
    ⟨vs, tag, pkt, hsome, hp, hvstream, hastream, hatime, hap, hprev, htime, hfr⟩
  · refine ⟨?_, ?_, ?_, ?_, ?_⟩
    · intro s hs; rw [hset] at hs; cases hs; rfl
    · intro s hs; rw [hastream] at hs; exact haud s hs
    · intro f hf
      rw [hsame] at hf
      rw [htime, hatime]
      exact hbound f hf
    · unfold substreamPts; rw [hsame]; exact hch0
    · unfold substreamPts; rw [hsame]; exact hch1
  · have hvsid : vs.id = 0 := hvid vs hsome
    obtain ⟨f, hfr, hfstream, hfpts⟩ :
        ∃ f, st'.frames = st.frames ++ [f] ∧ f.stream = vs ∧ f.time.pts = st'.video_time :=
      ⟨_, hfr, rfl, rfl⟩
    have hmono : st.video_time ≤ st'.video_time := by
      rw [htime]; exact Nat.le_add_right _ _
    refine ⟨?_, ?_, ?_, ?_, ?_⟩
    · intro s hs; rw [hvstream] at hs; exact hvid s hs
    · intro s hs; rw [hastream] at hs; exact haud s hs
    · intro g hg
      rw [hfr] at hg
      rcases List.mem_append.1 hg with hg | hg
      · exact ⟨fun h0 => le_trans ((hbound g hg).1 h0) hmono,
          fun h1 => hatime ▸ (hbound g hg).2 h1⟩
      · rw [List.mem_singleton] at hg
        subst hg
        refine ⟨fun _ => le_of_eq hfpts, fun h1 => ?_⟩
        rw [hfstream, hvsid] at h1
        cases h1
    · unfold substreamPts
      rw [hfr, List.filter_append, List.map_append]
      have hkeep : List.filter (fun g => g.stream.id == (0 : Nat)) [f] = [f] := by
        simp [List.filter, hfstream, hvsid]
      rw [hkeep]
      refine chain'_append_singleton hch0 ?_
      intro x hx
      simp only [substreamPts, List.mem_map, List.mem_filter] at hx
      obtain ⟨g, ⟨hgmem, hgid⟩, hgpts⟩ := hx
      have hgid' : g.stream.id = 0 := by simpa using hgid
      have hb := (hbound g hgmem).1 hgid'
      rw [hgpts] at hb
      show x ≤ f.time.pts
      rw [hfpts]
      exact le_trans hb hmono
    · unfold substreamPts
      rw [hfr, List.filter_append]
      have hdrop : List.filter (fun g => g.stream.id == (1 : Nat)) [f] = [] := by
        simp [List.filter, hfstream, hvsid]
      rw [hdrop, List.append_nil]
      exact hch1

/-- add_audio_frame preserves the timing invariant. -/
theorem timeInv_add_audio (st : RtmpReadFilter) (data : List Byte) (ts : Nat)
    (st' : RtmpReadFilter) (hok : add_audio_frame st data ts = .ok st')
    (hinv : TimeInv st) : TimeInv st' := by
  obtain ⟨hvid, haud, hbound, hch0, hch1⟩ := hinv
  rcases add_audio_frame_ok st data ts st' hok with
    ⟨hnone, hsame, hprev, htime, hvstream, hvtime, hvp, ci, hset⟩ |
    ⟨astr, tag, hsome, hp, hastream, hvstream, hvtime, hvp, hprev, htime, hfr⟩
  · refine ⟨?_, ?_, ?_, ?_, ?_⟩
    · intro s hs; rw [hvstream] at hs; exact hvid s hs
    · intro s hs; rw [hset] at hs; cases hs; rfl
    · intro f hf
      rw [hsame] at hf
      rw [htime, hvtime]
      exact hbound f hf
    · unfold substreamPts; rw [hsame]; exact hch0
    · unfold substreamPts; rw [hsame]; exact hch1
  · have hasid : astr.id = 1 := haud astr hsome
    obtain ⟨f, hfr, hfstream, hfpts⟩ :
        ∃ f, st'.frames = st.frames ++ [f] ∧ f.stream = astr ∧ f.time.pts = st'.audio_time :=
      ⟨_, hfr, rfl, rfl⟩
    have hmono : st.audio_time ≤ st'.audio_time := by
      rw [htime]; exact Nat.le_add_right _ _
    refine ⟨?_, ?_, ?_, ?_, ?_⟩
    · intro s hs; rw [hvstream] at hs; exact hvid s hs
    · intro s hs; rw [hastream] at hs; exact haud s hs
    · intro g hg
      rw [hfr] at hg
      rcases List.mem_append.1 hg with hg | hg
      · exact ⟨fun h0 => hvtime ▸ (hbound g hg).1 h0,
          fun h1 => le_trans ((hbound g hg).2 h1) hmono⟩
      · rw [List.mem_singleton] at hg
        subst hg
        refine ⟨fun h0 => ?_, fun _ => le_of_eq hfpts⟩
        rw [hfstream, hasid] at h0
        cases h0
    · unfold substreamPts
      rw [hfr, List.filter_append]
      have hdrop : List.filter (fun g => g.stream.id == (0 : Nat)) [f] = [] := by
        simp [List.filter, hfstream, hasid]
      rw [hdrop, List.append_nil]
      exact hch0
    · unfold substreamPts
      rw [hfr, List.filter_append, List.map_append]
      have hkeep : List.filter (fun g => g.stream.id == (1 : Nat)) [f] = [f] := by
        simp [List.filter, hfstream, hasid]
      rw [hkeep]
      refine chain'_append_singleton hch1 ?_
      intro x hx
      simp only [substreamPts, List.mem_map, List.mem_filter] at hx
      obtain ⟨g, ⟨hgmem, hgid⟩, hgpts⟩ := hx
      have hgid' : g.stream.id = 1 := by simpa using hgid
      have hb := (hbound g hgmem).2 hgid'
      rw [hgpts] at hb
      show x ≤ f.time.pts
      rw [hfpts]
      exact le_trans hb hmono

/-- process_event preserves the timing invariant. -/
theorem timeInv_process_event (st : RtmpReadFilter) (e : ServerSessionEvent)
    (st' : RtmpReadFilter) (hok : process_event st e = .ok st')
    (hinv : TimeInv st) : TimeInv st' := by
  cases e with
  | audioDataReceived data ts => exact timeInv_add_audio st data ts st' hok hinv
  | videoDataReceived data ts => exact timeInv_add_video st data ts st' hok hinv
  | streamMetadataChanged md => cases hok; exact hinv
  | otherEvent => cases hok; exact hinv

/-- runEvents preserves the timing invariant. -/
theorem timeInv_runEvents (events : List ServerSessionEvent) :
    ∀ st, TimeInv st → TimeInv (runEvents st events) := by
  induction events with
  | nil => intro st hinv; exact hinv
  | cons e rest ih =>
    intro st hinv
    rw [runEvents]
    cases hpe : process_event st e with
    | ok st2 => exact ih st2 (timeInv_process_event st e st2 hpe hinv)
    | err m => exact hinv
    | panic => exact hinv

/-- The initial assembler state satisfies the timing invariant. -/
theorem timeInv_new : TimeInv RtmpReadFilter.new := by
  refine ⟨?_, ?_, ?_, ?_, ?_⟩ <;> simp [RtmpReadFilter.new, substreamPts]

/-- C6: for every session (every sequence of raised events processed from
the initial state) and for each substream (video = id 0 and audio = id 1)
separately, the sequence of pts values carried by the frames the assembler
emits is monotonically non-decreasing. -/
theorem pts_monotone (events : List ServerSessionEvent) :
    List.Chain' (· ≤ ·) (substreamPts (runEvents RtmpReadFilter.new events) 0) ∧
    List.Chain' (· ≤ ·) (substreamPts (runEvents RtmpReadFilter.new events) 1) := by
  have h := timeInv_runEvents events RtmpReadFilter.new timeInv_new
  exact ⟨h.2.2.2.1, h.2.2.2.2⟩

/-! ### Claim C9 -/

/-- Characterization of the descriptor-await loop: on exit the loop condition
is false, the consumed prefix of the input was processed without failure into
the exit state, and the loop condition held at every state reached strictly
before the exit (so the loop stops at the first state where every expected
substream has its descriptor). -/
theorem pump_spec (expV expA : Bool) (events : List ServerSessionEvent) :
    ∀ (st st' : RtmpReadFilter) (rest' : List ServerSessionEvent),
      pump expV expA events st = .done st' rest' →
      pumpCond expV expA st' = false ∧
      ∃ consumed, events = consumed ++ rest' ∧ runOk st consumed = some st' ∧
        ∀ k, k < consumed.length → ∀ stk, runOk st (consumed.take k) = some stk →
          pumpCond expV expA stk = true := by
  induction events with
  | nil =>
    intro st st' rest' h
    rw [pump] at h
    split at h
    · cases h
    · rename_i hc
      cases h
      refine ⟨by simpa using hc, [], rfl, rfl, ?_⟩
      intro k hk
      simp at hk
  | cons e rest ih =>
    intro st st' rest' h
    rw [pump] at h
    split at h
    · rename_i hc
      split at h
      · rename_i st2 hpe
        obtain ⟨hcond, consumed, hsplit, hrun, hmin⟩ := ih st2 st' rest' h
        subst hsplit
        refine ⟨hcond, e :: consumed, rfl, ?_, ?_⟩
        · show runOk st (e :: consumed) = some st'
          rw [runOk, hpe]
          exact hrun
        · intro k hk stk hrk
          cases k with
          | zero =>
            rw [List.take_zero, runOk] at hrk
            cases hrk
            exact hc
          | succ j =>
            rw [List.take_succ_cons, runOk, hpe] at hrk
            exact hmin j (by simpa using hk) stk hrk
      · cases h
      · cases h
    · rename_i hc
      cases h
      refine ⟨by simpa using hc, [], rfl, rfl, ?_⟩
      intro k hk
      simp at hk

/-- C9: the driver's start pumps input until a StreamMetadataChanged event is
raised (it blocks forever when none arrives); afterwards, whenever it
returns a descriptor, the descriptors were obtained by processing (from the
fresh assembler state) exactly the prefix of the post-metadata input up to
the first state in which every substream expected by the metadata (video iff
video_width is present, audio iff audio_sample_rate is present) has its
stream descriptor, and the returned descriptor is the video stream
descriptor of that state. -/
theorem rtmp_start_characterization (events : List ServerSessionEvent) :
    (wait_for_metadata events = Option.none → start events = .blocked) ∧
    ∀ md rest, wait_for_metadata events = some (md, rest) →
      ∀ s st rest', start events = .ok s st rest' →
        st.video_stream = some s ∧
        (md.video_width.isSome = true → st.video_stream.isSome = true) ∧
        (md.audio_sample_rate.isSome = true → st.audio_stream.isSome = true) ∧
        ∃ consumed, rest = consumed ++ rest' ∧
          runOk RtmpReadFilter.new consumed = some st ∧
          ∀ k, k < consumed.length → ∀ stk,
            runOk RtmpReadFilter.new (consumed.take k) = some stk →
            pumpCond md.video_width.isSome md.audio_sample_rate.isSome stk = true := by
  constructor
  · intro h
    simp [start, h]
  · intro md rest hmd s st rest' hok
    cases hpump : pump md.video_width.isSome md.audio_sample_rate.isSome rest
        RtmpReadFilter.new with
    | done st2 r2 =>
      cases hvs : st2.video_stream with
      | some s2 =>
        simp only [start, hmd, hpump, hvs] at hok
        cases hok
        obtain ⟨hcond, consumed, hsplit, hrun, hmin⟩ :=
          pump_spec md.video_width.isSome md.audio_sample_rate.isSome rest
            RtmpReadFilter.new st rest' hpump
        refine ⟨hvs, ?_, ?_, consumed, hsplit, hrun, hmin⟩
        · intro _
          rw [hvs]
          rfl
        · intro ha
          cases hA : st.audio_stream with
          | some a => rfl
          | none => simp [pumpCond, ha, hA] at hcond
      | none =>
        simp only [start, hmd, hpump, hvs] at hok
        cases hok
    | err m => simp only [start, hmd, hpump] at hok; cases hok
    | panic => simp only [start, hmd, hpump] at hok; cases hok
    | blocked => simp only [start, hmd, hpump] at hok; cases hok

/-- Input events of a concrete video-only session: metadata declaring video,
then the descriptor-creating video payload. -/
def demoEvents : List ServerSessionEvent :=
  [.streamMetadataChanged ⟨some 1280, Option.none⟩, .videoDataReceived descData 0]

/-- C9 witness: on the concrete video-only session the driver returns, and it
returns the video stream descriptor of the final state. -/
theorem rtmp_start_characterization_witness :
    ∃ s st, start demoEvents = .ok s st [] ∧ st.video_stream = some s ∧
      st.video_stream.isSome = true := by
  refine ⟨_, _, rfl, ?_, ?_⟩
  · exact ((rtmp_start_characterization demoEvents).2 ⟨some 1280, Option.none⟩
      [.videoDataReceived descData 0] rfl _ _ [] rfl).1
  · exact ((rtmp_start_characterization demoEvents).2 ⟨some 1280, Option.none⟩
      [.videoDataReceived descData 0] rfl _ _ [] rfl).2.1 rfl

/-! ### Claim C10 -/

/-- Processing a list of events that contains no video payload never
installs a video stream descriptor. -/
theorem runOk_preserves_no_video (events : List ServerSessionEvent) :
    ∀ st st', runOk st events = some st' →
      (∀ data ts, ServerSessionEvent.videoDataReceived data ts ∉ events) →
      st.video_stream = Option.none → st'.video_stream = Option.none := by
  induction events with
  | nil =>
    intro st st' h _ hv
    rw [runOk] at h
    cases h
    exact hv
  | cons e rest ih =>
    intro st st' h hmem hv
    have hmem' : ∀ data ts, ServerSessionEvent.videoDataReceived data ts ∉ rest :=
      fun d t hm => hmem d t (List.mem_cons_of_mem _ hm)
    cases e with
    | videoDataReceived data ts =>
      exact absurd (List.mem_cons_self _ _) (hmem data ts)
    | audioDataReceived data ts =>
      rw [runOk] at h
      cases ha : process_event st (.audioDataReceived data ts) with
      | ok st2 =>
        rw [ha] at h
        have hv2 : st2.video_stream = Option.none := by
          rcases add_audio_frame_ok st data ts st2 ha with
            ⟨_, _, _, _, hvs, _⟩ | ⟨_, _, _, _, _, hvs, _⟩
          · rw [hvs]; exact hv
          · rw [hvs]; exact hv
        exact ih st2 st' h hmem' hv2
      | err m => rw [ha] at h; cases h
      | panic => rw [ha] at h; cases h
    | streamMetadataChanged md =>
      rw [runOk] at h
      exact ih st st' h hmem' hv
    | otherEvent =>
      rw [runOk] at h
      exact ih st st' h hmem' hv

/-- C10: when the stream metadata declares no video substream (video_width
absent) while declaring audio, and the session's post-metadata input carries
no video payloads, then as soon as the descriptor-await loop exits (which
requires the audio descriptor to exist), the driver's start panics on the
unwrap of the absent video descriptor instead of returning a descriptor or
an error. -/
theorem start_panics_without_video (events : List ServerSessionEvent)
    (md : StreamMetadata) (rest : List ServerSessionEvent)
    (st' : RtmpReadFilter) (rest' : List ServerSessionEvent)
    (hmd : wait_for_metadata events = some (md, rest))
    (_hnov : md.video_width = Option.none)
    (_haud : md.audio_sample_rate.isSome = true)
    (hnovid : ∀ data ts, ServerSessionEvent.videoDataReceived data ts ∉ rest)
    (hpump : pump md.video_width.isSome md.audio_sample_rate.isSome rest
      RtmpReadFilter.new = .done st' rest') :
    start events = .panic := by
  obtain ⟨hcond, consumed, hsplit, hrun, hmin⟩ :=
    pump_spec md.video_width.isSome md.audio_sample_rate.isSome rest
      RtmpReadFilter.new st' rest' hpump
  have hvnone : st'.video_stream = Option.none := by
    refine runOk_preserves_no_video consumed RtmpReadFilter.new st' hrun ?_ rfl
    intro data ts hm
    exact hnovid data ts (hsplit ▸ List.mem_append_left _ hm)
  simp only [start, hmd, hpump, hvnone]

/-- Input events of a concrete audio-only session: metadata declaring only
audio, then the descriptor-creating AAC tag. -/
def demoAudioEvents : List ServerSessionEvent :=
  [.streamMetadataChanged ⟨Option.none, some 44000⟩, .audioDataReceived aacData 0]

/-- C10 witness: the concrete audio-only session: once the audio descriptor
exists the driver's start panics. -/
theorem start_panics_without_video_witness :
    start demoAudioEvents = .panic := by
  exact start_panics_without_video demoAudioEvents ⟨Option.none, some 44000⟩
    [.audioDataReceived aacData 0] _ _ rfl rfl rfl
    (by intro data ts h; simp at h) rfl

end Streamhead
